import Mathlib

/-!
Verification of the Pong repository (src/main.js) against its specification.

The per-frame game logic is embedded shallowly over the rationals:

* canvas dimensions `clientWidth`/`clientHeight` are parameters `w h : Rat`;
* machine floats become exact rationals (the source constants 0.025, 0.333,
  1.1, 0.25, 0.5 are exact decimal literals);
* each call to Math.random() is modelled as an independent input in [0,1),
  supplied explicitly (the `Rng` record holds the five draws that a
  side-wall reset consumes, in call order);
* the mutable objects become explicit state records: a paddle is represented
  by its translation, a ball by the `BallState` record; `detectCollision`
  returns the optional modifier pair together with the possibly mutated
  ball state, exactly mirroring the mutation order of the source
  (detectCollision mutates on reset, then bounce mutates flag and velocity,
  then moveUpdate integrates the position).
-/

namespace Pong

/-- Source constant: POINT_SIZE = canvas.clientHeight * 0.025 (the ball render diameter). -/
def POINT_SIZE (clientHeight : ℚ) : ℚ := clientHeight * 0.025

/-- Source constant: PIXELS_PER_SEC = canvas.clientWidth * 0.333. -/
def PIXELS_PER_SEC (clientWidth : ℚ) : ℚ := clientWidth * 0.333

/-- Source constant: ACCELERATION = 1.1. -/
def ACCELERATION : ℚ := 1.1

/-- Source constant: plankWidth = canvas.clientWidth * 0.025. -/
def plankWidth (clientWidth : ℚ) : ℚ := clientWidth * 0.025

/-- Source constant: plankHeight = canvas.clientHeight * 0.25. -/
def plankHeight (clientHeight : ℚ) : ℚ := clientHeight * 0.25

/-- One axis of the record returned by Drawable.getCollisionRange. -/
structure MinMax where
  min : ℚ
  max : ℚ
deriving DecidableEq

/-- The record returned by Drawable.getCollisionRange. -/
structure CollisionRange where
  x : MinMax
  y : MinMax
deriving DecidableEq

/-- Drawable.getCollisionRange: the axis-aligned rectangle anchored at the
collidable entity translation, with the global plank width and height. -/
def getCollisionRange (w h : ℚ) (translation : ℚ × ℚ) : CollisionRange :=
  { x := { min := translation.1, max := translation.1 + plankWidth w }
    y := { min := translation.2, max := translation.2 + plankHeight h } }

/-- Drawable.randomColor: [Math.random(), Math.random(), Math.random(), 1],
with the three draws passed explicitly. -/
def randomColor (r1 r2 r3 : ℚ) : ℚ × ℚ × ℚ × ℚ := (r1, r2, r3, 1)

/-- Drawable.randomMoveVector:
[(Math.random() > 0.5 ? 1 : -1), ((Math.random() * 2) - 1) * 0.5],
with the two draws passed explicitly. -/
def randomMoveVector (r1 r2 : ℚ) : ℚ × ℚ :=
  ((if r1 > 0.5 then 1 else -1), (r2 * 2 - 1) * 0.5)

/-- The five Math.random() draws a side-wall reset consumes, in call order:
two for randomMoveVector, then three for randomColor. -/
structure Rng where
  v1 : ℚ
  v2 : ℚ
  c1 : ℚ
  c2 : ℚ
  c3 : ℚ
deriving DecidableEq

/-- The mutable fields of a Ball object that the per-frame logic touches. -/
structure BallState where
  translation : ℚ × ℚ
  moveVector : ℚ × ℚ
  color : ℚ × ℚ × ℚ × ℚ
  isInsideCollidable : Bool
deriving DecidableEq

/-- The in-loop rectangle test of Ball.detectCollision for one collidable:
range.x.min - ballOffset <= x && x <= range.x.max + ballOffset &&
range.y.min - ballOffset <= y && y <= range.y.max + ballOffset. -/
def inExpandedRange (w h : ℚ) (x y ballOffset : ℚ) (p : ℚ × ℚ) : Bool :=
  let range := getCollisionRange w h p
  decide (range.x.min - ballOffset ≤ x) && decide (x ≤ range.x.max + ballOffset) &&
  decide (range.y.min - ballOffset ≤ y) && decide (y ≤ range.y.max + ballOffset)

/-- Ball.detectCollision. Returns the modifier (null becomes none) together
with the ball state, which the side-wall branch mutates (recenter, fresh
random velocity and color) before returning null. The paddle loop returns
[-1, 1] on the first collidable whose expanded rectangle contains the ball
position while the isInsideCollidable flag is down; since the flag test is
loop-invariant this is List.any. -/
def detectCollision (w h : ℚ) (rng : Rng) (collidables : List (ℚ × ℚ))
    (b : BallState) : Option (ℚ × ℚ) × BallState :=
  if collidables.any (fun p => !b.isInsideCollidable &&
      inExpandedRange w h b.translation.1 b.translation.2 (POINT_SIZE h / 2) p) then
    (some (-1, 1), b)
  else if b.translation.2 ≤ 0 ∨ h ≤ b.translation.2 then
    (some (1, -1), b)
  else if b.translation.1 ≤ 0 ∨ w ≤ b.translation.1 then
    (none, { b with translation := (w / 2, h / 2)
                    moveVector := randomMoveVector rng.v1 rng.v2
                    color := randomColor rng.c1 rng.c2 rng.c3 })
  else
    (none, b)

/-- Ball.bounce: on a non-null modifier, raise the flag and multiply each
velocity component by the modifier component and ACCELERATION; on null,
lower the flag. -/
def bounce (modifiers : Option (ℚ × ℚ)) (b : BallState) : BallState :=
  match modifiers with
  | some m =>
      { b with isInsideCollidable := true
               moveVector := (b.moveVector.1 * m.1 * ACCELERATION,
                              b.moveVector.2 * m.2 * ACCELERATION) }
  | none => { b with isInsideCollidable := false }

/-- Ball.moveUpdate: bounce(detectCollision()), then integrate the position
by PIXELS_PER_SEC * moveVector * deltaTime on each axis. -/
def ballMoveUpdate (w h : ℚ) (rng : Rng) (collidables : List (ℚ × ℚ))
    (deltaTime : ℚ) (b : BallState) : BallState :=
  let res := detectCollision w h rng collidables b
  let b1 := bounce res.1 res.2
  { b1 with translation := (b1.translation.1 + PIXELS_PER_SEC w * b1.moveVector.1 * deltaTime,
                            b1.translation.2 + PIXELS_PER_SEC w * b1.moveVector.2 * deltaTime) }

/-- Plank.moveUpdate, acting on the Y translation: add
PIXELS_PER_SEC * deltaTime if the up key is pressed, then subtract
PIXELS_PER_SEC * deltaTime if the down key is pressed. -/
def plankMoveUpdate (w : ℚ) (upPressed downPressed : Bool) (deltaTime : ℚ) (y : ℚ) : ℚ :=
  let y1 := if upPressed then y + PIXELS_PER_SEC w * deltaTime else y
  if downPressed then y1 - PIXELS_PER_SEC w * deltaTime else y1

/-- An argument passed to Ball.registerCollisionObject: either an instance of
the Drawable base (represented by its translation, the only field the
collision test reads) or any other JavaScript value. -/
inductive JSObject where
  | drawable (translation : ℚ × ℚ) : JSObject
  | nonDrawable : JSObject
deriving DecidableEq

/-- The obj instanceof Drawable test. -/
def instanceOfDrawable : JSObject → Bool
  | .drawable _ => true
  | .nonDrawable => false

/-- Ball.registerCollisionObject: throw before touching the list when the
argument is not a Drawable, else push it. The result pairs the optional
thrown message with the collidables list after the call. -/
def registerCollisionObject (collidables : List (ℚ × ℚ)) (obj : JSObject) :
    Option String × List (ℚ × ℚ) :=
  match obj with
  | .nonDrawable => (some "Object must be of type Drawable", collidables)
  | .drawable t => (none, collidables ++ [t])

/-- The paddle branch condition of Ball.detectCollision, stated declaratively:
the flag is down and some registered collidable has the ball position inside
its rectangle expanded by half the ball render diameter on all sides. -/
def paddleOverlapCond (w h : ℚ) (ps : List (ℚ × ℚ)) (b : BallState) : Prop :=
  b.isInsideCollidable = false ∧ ∃ p ∈ ps,
    (getCollisionRange w h p).x.min - POINT_SIZE h / 2 ≤ b.translation.1 ∧
    b.translation.1 ≤ (getCollisionRange w h p).x.max + POINT_SIZE h / 2 ∧
    (getCollisionRange w h p).y.min - POINT_SIZE h / 2 ≤ b.translation.2 ∧
    b.translation.2 ≤ (getCollisionRange w h p).y.max + POINT_SIZE h / 2

/-- A fixed bundle of random draws for scenarios in which no reset fires. -/
def rng0 : Rng := ⟨0, 0, 0, 0, 0⟩

/-- C1 scenario: one paddle at the origin with field 800 by 600; the ball sits
at the right boundary of the expanded rectangle (x = 20 + 7.5) with the flag
down, moving right; every frame uses deltaTime = 0 so the ball stays put. -/
def c1B0 : BallState := ⟨(55 / 2, 75), (1, 0), (1, 0, 0, 1), false⟩

/-- C1 scenario, state after one frame. -/
def c1B1 : BallState := ballMoveUpdate 800 600 rng0 [(0, 0)] 0 c1B0

/-- C1 scenario, state after two frames. -/
def c1B2 : BallState := ballMoveUpdate 800 600 rng0 [(0, 0)] 0 c1B1

/-- C1 scenario, state after three frames. -/
def c1B3 : BallState := ballMoveUpdate 800 600 rng0 [(0, 0)] 0 c1B2

/-- Random draws used by the reset scenarios: the fresh velocity is (1, 0)
and the fresh color is (1/4, 1/2, 3/4, 1). -/
def c2Rng : Rng := ⟨3 / 4, 1 / 2, 1 / 4, 1 / 2, 3 / 4⟩

/-- The two paddles registered at startup on an 800 by 600 field: one at the
origin and one at (800 - plankWidth, 600 - plankHeight) = (780, 450). -/
def c2Paddles : List (ℚ × ℚ) := [(0, 0), (780, 450)]

/-- C2 scenario: ball at (0, h/2) with velocity (-1, 0), flag down. -/
def c2B0 : BallState := ⟨(0, 300), (-1, 0), (1, 0, 0, 1), false⟩

/-- C3 scenario: ball at the left edge with the flag already up. -/
def c3B0 : BallState := ⟨(0, 300), (-1, 0), (1, 0, 0, 1), true⟩

/-- C3 witness scenario: ball overlapping the origin paddle, moving down fast
enough to contact the bottom wall on the next frame. -/
def c3W0 : BallState := ⟨(10, 10), (1, -1), (1, 0, 0, 1), false⟩

/-- C3 witness scenario, state after one frame with deltaTime = 1. -/
def c3W1 : BallState := ballMoveUpdate 800 600 rng0 [(0, 0)] 1 c3W0

/-- C4 witness scenario: ball inside the origin paddle rectangle, flag down. -/
def c4B : BallState := ⟨(10, 10), (1, 1), (1, 0, 0, 1), false⟩

/-- C9 scenario: ball on the bottom wall away from the paddle, flag down,
moving left and down; after the wall bounce it enters the paddle rectangle. -/
def c9B0 : BallState := ⟨(100, 0), (-1, -1), (1, 0, 0, 1), false⟩

/-- C9 scenario, state after one frame with deltaTime = 1/4. -/
def c9B1 : BallState := ballMoveUpdate 800 600 rng0 [(0, 0)] (1 / 4) c9B0

/-- The paddle loop of detectCollision fires exactly when the declarative
paddle branch condition holds. -/
lemma any_expanded_iff (w h : ℚ) (ps : List (ℚ × ℚ)) (b : BallState) :
    (ps.any (fun p => !b.isInsideCollidable &&
        inExpandedRange w h b.translation.1 b.translation.2 (POINT_SIZE h / 2) p) = true)
      ↔ paddleOverlapCond w h ps b := by
  simp only [List.any_eq_true, Bool.and_eq_true, Bool.not_eq_true',
    inExpandedRange, paddleOverlapCond, decide_eq_true_eq]
  constructor
  · rintro ⟨p, hp, hflag, h1, h2⟩
    exact ⟨hflag, p, hp, h1.1.1, h1.1.2, h1.2, h2⟩
  · rintro ⟨hflag, p, hp, h1, h2, h3, h4⟩
    exact ⟨p, hp, hflag, ⟨⟨h1, h2⟩, h3⟩, h4⟩

/-- Branch a of detectCollision: the paddle loop fires. -/
lemma detectCollision_paddle (w h : ℚ) (rng : Rng) (ps : List (ℚ × ℚ)) (b : BallState)
    (hpad : paddleOverlapCond w h ps b) :
    detectCollision w h rng ps b = (some (-1, 1), b) := by
  have hany := (any_expanded_iff w h ps b).mpr hpad
  simp [detectCollision, hany]

/-- Branch b of detectCollision: no paddle hit, top or bottom wall contact. -/
lemma detectCollision_wall (w h : ℚ) (rng : Rng) (ps : List (ℚ × ℚ)) (b : BallState)
    (hpad : ¬ paddleOverlapCond w h ps b)
    (hwall : b.translation.2 ≤ 0 ∨ h ≤ b.translation.2) :
    detectCollision w h rng ps b = (some (1, -1), b) := by
  have hany : (ps.any (fun p => !b.isInsideCollidable &&
      inExpandedRange w h b.translation.1 b.translation.2 (POINT_SIZE h / 2) p)) = false :=
    Bool.eq_false_iff.mpr (fun hc => hpad ((any_expanded_iff w h ps b).mp hc))
  simp [detectCollision, hany, hwall]

/-- Branch c of detectCollision: no paddle hit, no wall contact, side-wall
exit; the state is recentered and given a fresh velocity and color. -/
lemma detectCollision_reset (w h : ℚ) (rng : Rng) (ps : List (ℚ × ℚ)) (b : BallState)
    (hpad : ¬ paddleOverlapCond w h ps b)
    (hwall : ¬ (b.translation.2 ≤ 0 ∨ h ≤ b.translation.2))
    (hside : b.translation.1 ≤ 0 ∨ w ≤ b.translation.1) :
    detectCollision w h rng ps b =
      (none, { b with translation := (w / 2, h / 2)
                      moveVector := randomMoveVector rng.v1 rng.v2
                      color := randomColor rng.c1 rng.c2 rng.c3 }) := by
  have hany : (ps.any (fun p => !b.isInsideCollidable &&
      inExpandedRange w h b.translation.1 b.translation.2 (POINT_SIZE h / 2) p)) = false :=
    Bool.eq_false_iff.mpr (fun hc => hpad ((any_expanded_iff w h ps b).mp hc))
  simp [detectCollision, hany, hwall, hside]

/-- Branch d of detectCollision: nothing matches, the state is untouched. -/
lemma detectCollision_none (w h : ℚ) (rng : Rng) (ps : List (ℚ × ℚ)) (b : BallState)
    (hpad : ¬ paddleOverlapCond w h ps b)
    (hwall : ¬ (b.translation.2 ≤ 0 ∨ h ≤ b.translation.2))
    (hside : ¬ (b.translation.1 ≤ 0 ∨ w ≤ b.translation.1)) :
    detectCollision w h rng ps b = (none, b) := by
  have hany : (ps.any (fun p => !b.isInsideCollidable &&
      inExpandedRange w h b.translation.1 b.translation.2 (POINT_SIZE h / 2) p)) = false :=
    Bool.eq_false_iff.mpr (fun hc => hpad ((any_expanded_iff w h ps b).mp hc))
  simp [detectCollision, hany, hwall, hside]

/-- Bounce leaves the flag up exactly when the modifier is non-null. -/
lemma bounce_flag (m : Option (ℚ × ℚ)) (b : BallState) :
    (bounce m b).isInsideCollidable = m.isSome := by
  cases m <;> rfl

/-- The frame update in terms of detectCollision and bounce. -/
lemma ballMoveUpdate_eq (w h : ℚ) (rng : Rng) (ps : List (ℚ × ℚ)) (dt : ℚ) (b : BallState) :
    ballMoveUpdate w h rng ps dt b =
      { bounce (detectCollision w h rng ps b).1 (detectCollision w h rng ps b).2 with
        translation :=
          ((bounce (detectCollision w h rng ps b).1 (detectCollision w h rng ps b).2).translation.1
            + PIXELS_PER_SEC w *
              (bounce (detectCollision w h rng ps b).1 (detectCollision w h rng ps b).2).moveVector.1 * dt,
           (bounce (detectCollision w h rng ps b).1 (detectCollision w h rng ps b).2).translation.2
            + PIXELS_PER_SEC w *
              (bounce (detectCollision w h rng ps b).1 (detectCollision w h rng ps b).2).moveVector.2 * dt) } :=
  rfl

/-- After a frame update the flag is up exactly when a modifier was returned. -/
lemma ballMoveUpdate_flag (w h : ℚ) (rng : Rng) (ps : List (ℚ × ℚ)) (dt : ℚ) (b : BallState) :
    (ballMoveUpdate w h rng ps dt b).isInsideCollidable =
      (detectCollision w h rng ps b).1.isSome := by
  rw [ballMoveUpdate_eq]
  exact bounce_flag _ _

/-- A frame update does not change the velocity computed by the bounce step. -/
lemma ballMoveUpdate_moveVector (w h : ℚ) (rng : Rng) (ps : List (ℚ × ℚ)) (dt : ℚ)
    (b : BallState) :
    (ballMoveUpdate w h rng ps dt b).moveVector =
      (bounce (detectCollision w h rng ps b).1 (detectCollision w h rng ps b).2).moveVector :=
  rfl

/-- The declarative paddle branch condition, restated with the executable
rectangle test. -/
lemma paddleOverlapCond_iff (w h : ℚ) (ps : List (ℚ × ℚ)) (b : BallState) :
    paddleOverlapCond w h ps b ↔
      (b.isInsideCollidable = false ∧ ∃ p ∈ ps,
        inExpandedRange w h b.translation.1 b.translation.2 (POINT_SIZE h / 2) p = true) := by
  simp only [paddleOverlapCond, inExpandedRange, Bool.and_eq_true, decide_eq_true_eq]
  constructor
  · rintro ⟨hflag, p, hp, h1, h2, h3, h4⟩
    exact ⟨hflag, p, hp, ⟨⟨h1, h2⟩, h3⟩, h4⟩
  · rintro ⟨hflag, p, hp, ⟨⟨h1, h2⟩, h3⟩, h4⟩
    exact ⟨hflag, p, hp, h1, h2, h3, h4⟩

/-- While the flag is up, the paddle loop of detectCollision cannot fire. -/
lemma any_false_of_flag (w h : ℚ) (ps : List (ℚ × ℚ)) (b : BallState)
    (hb : b.isInsideCollidable = true) :
    ps.any (fun p => !b.isInsideCollidable &&
      inExpandedRange w h b.translation.1 b.translation.2 (POINT_SIZE h / 2) p) = false := by
  rw [hb]
  simp

/-- While the flag is up, detectCollision never returns the paddle modifier:
this is the debounce. -/
lemma flag_blocks_paddle (w h : ℚ) (rng : Rng) (ps : List (ℚ × ℚ)) (b : BallState)
    (hb : b.isInsideCollidable = true) :
    (detectCollision w h rng ps b).1 ≠ some (-1, 1) := by
  intro hcontra
  unfold detectCollision at hcontra
  rw [any_false_of_flag w h ps b hb, if_neg (by simp : ¬(false = true))] at hcontra
  split_ifs at hcontra
  · simp only [Option.some.injEq, Prod.mk.injEq] at hcontra
    exact absurd hcontra.1 (by norm_num)

/-- ACCELERATION is positive. -/
lemma acceleration_pos : (0 : ℚ) < ACCELERATION := by norm_num [ACCELERATION]

/-- C6: for every elapsed time deltaTime at least 0, the paddle Y translation
changes by exactly PIXELS_PER_SEC times deltaTime for each bound key held
during the frame, increasing for the up key and decreasing for the down key,
and is unchanged when neither key is held; the equations hold for every Y
value with no bounds clamp, and with the down key held from Y = 0 the paddle
moves strictly below the screen. -/
theorem C6_plank_movement (w dt y : ℚ) (hdt : 0 ≤ dt) :
    plankMoveUpdate w true false dt y = y + PIXELS_PER_SEC w * dt ∧
    plankMoveUpdate w false true dt y = y - PIXELS_PER_SEC w * dt ∧
    plankMoveUpdate w false false dt y = y ∧
    (0 < w → 0 < dt → plankMoveUpdate w false true dt 0 < 0) := by
  refine ⟨rfl, rfl, rfl, fun hw hdt0 => ?_⟩
  show (0 : ℚ) - PIXELS_PER_SEC w * dt < 0
  have : 0 < PIXELS_PER_SEC w * dt := by
    have : 0 < PIXELS_PER_SEC w := by
      unfold PIXELS_PER_SEC
      nlinarith
    nlinarith
  linarith

/-- Witness for C6 at w = 800, dt = 2, y = 10. -/
theorem C6_plank_movement_witness :
    (0 : ℚ) ≤ 2 ∧
    (plankMoveUpdate 800 true false 2 10 = 10 + PIXELS_PER_SEC 800 * 2 ∧
     plankMoveUpdate 800 false true 2 10 = 10 - PIXELS_PER_SEC 800 * 2 ∧
     plankMoveUpdate 800 false false 2 10 = 10 ∧
     ((0 : ℚ) < 800 → (0 : ℚ) < 2 → plankMoveUpdate 800 false true 2 0 < 0)) :=
  ⟨by norm_num, C6_plank_movement 800 2 10 (by norm_num)⟩

/-- C10: when both bound keys are held during the same frame the two
displacements cancel exactly and the paddle Y translation is unchanged,
for every deltaTime. -/
theorem C10_both_keys_cancel (w dt y : ℚ) :
    plankMoveUpdate w true true dt y = y := by
  simp [plankMoveUpdate]

/-- C8: registering a collidable raises an error exactly when the argument is
not an instance of the Drawable base; on error the collidables list is
unchanged, and on success the object is appended at the end of the list. -/
theorem C8_register_collision_object (ps : List (ℚ × ℚ)) (obj : JSObject) :
    ((registerCollisionObject ps obj).1.isSome ↔ instanceOfDrawable obj = false) ∧
    (instanceOfDrawable obj = false →
      registerCollisionObject ps obj = (some "Object must be of type Drawable", ps)) ∧
    (∀ t, obj = JSObject.drawable t →
      registerCollisionObject ps obj = (none, ps ++ [t])) := by
  cases obj <;> simp [registerCollisionObject, instanceOfDrawable]

/-- Witness for C8 on the empty list and a non-Drawable argument. -/
theorem C8_register_collision_object_witness :
    ((registerCollisionObject [] JSObject.nonDrawable).1.isSome ↔
      instanceOfDrawable JSObject.nonDrawable = false) ∧
    (instanceOfDrawable JSObject.nonDrawable = false →
      registerCollisionObject [] JSObject.nonDrawable =
        (some "Object must be of type Drawable", [])) ∧
    (∀ t, JSObject.nonDrawable = JSObject.drawable t →
      registerCollisionObject [] JSObject.nonDrawable = (none, [] ++ [t])) :=
  C8_register_collision_object [] JSObject.nonDrawable

/-- C5: the collision test only ever returns the modifiers (-1, 1) (paddle)
and (1, -1) (wall); the paddle modifier flips the sign of the X velocity
component only and the wall modifier flips the sign of the Y component only,
while both components are scaled in magnitude by ACCELERATION. -/
theorem C5_single_axis_flip (w h : ℚ) (rng : Rng) (ps : List (ℚ × ℚ)) (b : BallState) :
    (∀ m, (detectCollision w h rng ps b).1 = some m → m = (-1, 1) ∨ m = (1, -1)) ∧
    (bounce (some (-1, 1)) b).moveVector.1 = -(ACCELERATION * b.moveVector.1) ∧
    (bounce (some (-1, 1)) b).moveVector.2 = ACCELERATION * b.moveVector.2 ∧
    |(bounce (some (-1, 1)) b).moveVector.1| = ACCELERATION * |b.moveVector.1| ∧
    |(bounce (some (-1, 1)) b).moveVector.2| = ACCELERATION * |b.moveVector.2| ∧
    (b.moveVector.1 ≠ 0 →
      (0 < b.moveVector.1 ↔ (bounce (some (-1, 1)) b).moveVector.1 < 0)) ∧
    (b.moveVector.2 ≠ 0 →
      (0 < b.moveVector.2 ↔ 0 < (bounce (some (-1, 1)) b).moveVector.2)) ∧
    (bounce (some (1, -1)) b).moveVector.1 = ACCELERATION * b.moveVector.1 ∧
    (bounce (some (1, -1)) b).moveVector.2 = -(ACCELERATION * b.moveVector.2) ∧
    |(bounce (some (1, -1)) b).moveVector.1| = ACCELERATION * |b.moveVector.1| ∧
    |(bounce (some (1, -1)) b).moveVector.2| = ACCELERATION * |b.moveVector.2| ∧
    (b.moveVector.1 ≠ 0 →
      (0 < b.moveVector.1 ↔ 0 < (bounce (some (1, -1)) b).moveVector.1)) ∧
    (b.moveVector.2 ≠ 0 →
      (0 < b.moveVector.2 ↔ (bounce (some (1, -1)) b).moveVector.2 < 0)) := by
  have hA : (0 : ℚ) < ACCELERATION := acceleration_pos
  have hAabs : |ACCELERATION| = ACCELERATION := abs_of_pos hA
  refine ⟨?_, ?_, ?_, ?_, ?_, ?_, ?_, ?_, ?_, ?_, ?_, ?_, ?_⟩
  · intro m hm
    unfold detectCollision at hm
    split_ifs at hm with h1 h2 h3 <;> simp at hm
    · exact Or.inl hm.symm
    · exact Or.inr hm.symm
  · show b.moveVector.1 * (-1) * ACCELERATION = _
    ring
  · show b.moveVector.2 * 1 * ACCELERATION = _
    ring
  · show |b.moveVector.1 * (-1) * ACCELERATION| = _
    rw [abs_mul, abs_mul, hAabs]
    simp [mul_comm]
  · show |b.moveVector.2 * 1 * ACCELERATION| = _
    rw [abs_mul, abs_mul, hAabs]
    simp [mul_comm]
  · intro hne
    show 0 < b.moveVector.1 ↔ b.moveVector.1 * (-1) * ACCELERATION < 0
    constructor
    · intro hpos
      nlinarith
    · intro hneg
      rcases lt_or_gt_of_ne hne with hlt | hgt
      · nlinarith
      · exact hgt
  · intro hne
    show 0 < b.moveVector.2 ↔ 0 < b.moveVector.2 * 1 * ACCELERATION
    constructor
    · intro hpos
      nlinarith
    · intro hpos2
      rcases lt_or_gt_of_ne hne with hlt | hgt
      · nlinarith
      · exact hgt
  · show b.moveVector.1 * 1 * ACCELERATION = _
    ring
  · show b.moveVector.2 * (-1) * ACCELERATION = _
    ring
  · show |b.moveVector.1 * 1 * ACCELERATION| = _
    rw [abs_mul, abs_mul, hAabs]
    simp [mul_comm]
  · show |b.moveVector.2 * (-1) * ACCELERATION| = _
    rw [abs_mul, abs_mul, hAabs]
    simp [mul_comm]
  · intro hne
    show 0 < b.moveVector.1 ↔ 0 < b.moveVector.1 * 1 * ACCELERATION
    constructor
    · intro hpos
      nlinarith
    · intro hpos2
      rcases lt_or_gt_of_ne hne with hlt | hgt
      · nlinarith
      · exact hgt
  · intro hne
    show 0 < b.moveVector.2 ↔ b.moveVector.2 * (-1) * ACCELERATION < 0
    constructor
    · intro hpos
      nlinarith
    · intro hneg
      rcases lt_or_gt_of_ne hne with hlt | hgt
      · nlinarith
      · exact hgt

/-- Witness for C5: the sign of the X component flips under the paddle
modifier at a concrete ball state with velocity (1, 2). -/
theorem C5_single_axis_flip_witness :
    ((1 : ℚ) ≠ 0) ∧
    (0 < (1 : ℚ) ↔
      (bounce (some (-1, 1))
        (BallState.mk (5, 5) (1, 2) (0, 0, 0, 1) false)).moveVector.1 < 0) :=
  ⟨by norm_num,
    (C5_single_axis_flip 800 600 (Rng.mk 0 0 0 0 0) []
      (BallState.mk (5, 5) (1, 2) (0, 0, 0, 1) false)).2.2.2.2.2.1 (by norm_num)⟩

/-- C7: with each Math.random() call modelled as an independent input in
[0, 1), a fresh velocity has X component exactly 1 or -1, taking the value 1
exactly on the upper half of the input range and -1 on the lower half, the
two halves having equal Lebesgue measure; the Y component lies within
[-0.5, 0.5]; a fresh color has each of R, G, B within [0, 1] and alpha
exactly 1. -/
theorem C7_random_sampling (r1 r2 c1 c2 c3 : ℚ)
    (hr1 : 0 ≤ r1 ∧ r1 < 1) (hr2 : 0 ≤ r2 ∧ r2 < 1)
    (hc1 : 0 ≤ c1 ∧ c1 < 1) (hc2 : 0 ≤ c2 ∧ c2 < 1) (hc3 : 0 ≤ c3 ∧ c3 < 1) :
    ((randomMoveVector r1 r2).1 = 1 ∨ (randomMoveVector r1 r2).1 = -1) ∧
    ((randomMoveVector r1 r2).1 = 1 ↔ 0.5 < r1) ∧
    ((randomMoveVector r1 r2).1 = -1 ↔ r1 ≤ 0.5) ∧
    MeasureTheory.volume {t : ℝ | t ∈ Set.Ico (0 : ℝ) 1 ∧ 1 / 2 < t} =
      MeasureTheory.volume {t : ℝ | t ∈ Set.Ico (0 : ℝ) 1 ∧ t ≤ 1 / 2} ∧
    (-0.5 ≤ (randomMoveVector r1 r2).2 ∧ (randomMoveVector r1 r2).2 ≤ 0.5) ∧
    (0 ≤ (randomColor c1 c2 c3).1 ∧ (randomColor c1 c2 c3).1 ≤ 1) ∧
    (0 ≤ (randomColor c1 c2 c3).2.1 ∧ (randomColor c1 c2 c3).2.1 ≤ 1) ∧
    (0 ≤ (randomColor c1 c2 c3).2.2.1 ∧ (randomColor c1 c2 c3).2.2.1 ≤ 1) ∧
    (randomColor c1 c2 c3).2.2.2 = 1 := by
  obtain ⟨hr1a, hr1b⟩ := hr1
  obtain ⟨hr2a, hr2b⟩ := hr2
  refine ⟨?_, ?_, ?_, ?_, ?_, ?_, ?_, ?_, rfl⟩
  · by_cases hcut : r1 > 0.5
    · exact Or.inl (by simp [randomMoveVector, hcut])
    · exact Or.inr (by simp [randomMoveVector, hcut])
  · by_cases hcut : r1 > 0.5
    · simp [randomMoveVector, hcut]
    · simp only [randomMoveVector, if_neg hcut]
      norm_num
      have := not_lt.mp hcut
      linarith
  · by_cases hcut : r1 > 0.5
    · simp only [randomMoveVector, if_pos hcut]
      norm_num
      linarith
    · simp only [randomMoveVector, if_neg hcut]
      simp [not_lt.mp hcut]
  · have e1 : {t : ℝ | t ∈ Set.Ico (0 : ℝ) 1 ∧ 1 / 2 < t} = Set.Ioo (1 / 2 : ℝ) 1 := by
      ext t
      simp only [Set.mem_setOf_eq, Set.mem_Ico, Set.mem_Ioo]
      constructor
      · rintro ⟨⟨h0, h1⟩, h2⟩
        exact ⟨h2, h1⟩
      · rintro ⟨h2, h1⟩
        exact ⟨⟨by linarith, h1⟩, h2⟩
    have e2 : {t : ℝ | t ∈ Set.Ico (0 : ℝ) 1 ∧ t ≤ 1 / 2} = Set.Icc (0 : ℝ) (1 / 2) := by
      ext t
      simp only [Set.mem_setOf_eq, Set.mem_Ico, Set.mem_Icc]
      constructor
      · rintro ⟨⟨h0, h1⟩, h2⟩
        exact ⟨h0, h2⟩
      · rintro ⟨h0, h2⟩
        exact ⟨⟨h0, by linarith⟩, h2⟩
    rw [e1, e2, Real.volume_Ioo, Real.volume_Icc]
    norm_num
  · constructor
    · show -0.5 ≤ (r2 * 2 - 1) * 0.5
      nlinarith
    · show (r2 * 2 - 1) * 0.5 ≤ 0.5
      nlinarith
  · exact ⟨hc1.1, le_of_lt hc1.2⟩
  · exact ⟨hc2.1, le_of_lt hc2.2⟩
  · exact ⟨hc3.1, le_of_lt hc3.2⟩

/-- Witness for C7 at draws 0.75, 0.25, 0.1, 0.2, 0.3. -/
theorem C7_random_sampling_witness :
    ((0 : ℚ) ≤ 0.75 ∧ (0.75 : ℚ) < 1) ∧
    (((randomMoveVector 0.75 0.25).1 = 1 ∨ (randomMoveVector 0.75 0.25).1 = -1) ∧
     ((randomMoveVector 0.75 0.25).1 = 1 ↔ (0.5 : ℚ) < 0.75) ∧
     ((randomMoveVector 0.75 0.25).1 = -1 ↔ (0.75 : ℚ) ≤ 0.5) ∧
     MeasureTheory.volume {t : ℝ | t ∈ Set.Ico (0 : ℝ) 1 ∧ 1 / 2 < t} =
       MeasureTheory.volume {t : ℝ | t ∈ Set.Ico (0 : ℝ) 1 ∧ t ≤ 1 / 2} ∧
     (-0.5 ≤ (randomMoveVector 0.75 0.25).2 ∧ (randomMoveVector 0.75 0.25).2 ≤ 0.5) ∧
     (0 ≤ (randomColor 0.1 0.2 0.3).1 ∧ (randomColor 0.1 0.2 0.3).1 ≤ 1) ∧
     (0 ≤ (randomColor 0.1 0.2 0.3).2.1 ∧ (randomColor 0.1 0.2 0.3).2.1 ≤ 1) ∧
     (0 ≤ (randomColor 0.1 0.2 0.3).2.2.1 ∧ (randomColor 0.1 0.2 0.3).2.2.1 ≤ 1) ∧
     (randomColor 0.1 0.2 0.3).2.2.2 = 1) :=
  ⟨by norm_num,
    C7_random_sampling 0.75 0.25 0.1 0.2 0.3 (by norm_num) (by norm_num)
      (by norm_num) (by norm_num) (by norm_num)⟩

/-- C4: the collision test evaluates its cases in fixed order with the first
match winning: paddle overlap with the flag down yields modifier (-1, 1) and
the subsequent bounce raises the flag; else top or bottom wall contact yields
(1, -1) with no flag test; else a side-wall exit recenters the ball, assigns
a fresh random velocity and color, and yields no modifier; else no modifier
is returned and the subsequent bounce lowers the flag. -/
theorem C4_collision_priority (w h : ℚ) (rng : Rng) (ps : List (ℚ × ℚ)) (b : BallState) :
    (paddleOverlapCond w h ps b →
      detectCollision w h rng ps b = (some (-1, 1), b) ∧
      (bounce (detectCollision w h rng ps b).1
        (detectCollision w h rng ps b).2).isInsideCollidable = true) ∧
    (¬ paddleOverlapCond w h ps b →
      (b.translation.2 ≤ 0 ∨ h ≤ b.translation.2) →
      detectCollision w h rng ps b = (some (1, -1), b)) ∧
    (¬ paddleOverlapCond w h ps b →
      ¬ (b.translation.2 ≤ 0 ∨ h ≤ b.translation.2) →
      (b.translation.1 ≤ 0 ∨ w ≤ b.translation.1) →
      (detectCollision w h rng ps b).1 = none ∧
      (detectCollision w h rng ps b).2.translation = (w / 2, h / 2) ∧
      (detectCollision w h rng ps b).2.moveVector = randomMoveVector rng.v1 rng.v2 ∧
      (detectCollision w h rng ps b).2.color = randomColor rng.c1 rng.c2 rng.c3) ∧
    (¬ paddleOverlapCond w h ps b →
      ¬ (b.translation.2 ≤ 0 ∨ h ≤ b.translation.2) →
      ¬ (b.translation.1 ≤ 0 ∨ w ≤ b.translation.1) →
      detectCollision w h rng ps b = (none, b) ∧
      (bounce (detectCollision w h rng ps b).1
        (detectCollision w h rng ps b).2).isInsideCollidable = false) := by
  refine ⟨fun hpad => ?_, fun hpad hwall => detectCollision_wall w h rng ps b hpad hwall,
    fun hpad hwall hside => ?_, fun hpad hwall hside => ?_⟩
  · have hd := detectCollision_paddle w h rng ps b hpad
    exact ⟨hd, by rw [hd]; rfl⟩
  · have hd := detectCollision_reset w h rng ps b hpad hwall hside
    rw [hd]
    exact ⟨rfl, rfl, rfl, rfl⟩
  · have hd := detectCollision_none w h rng ps b hpad hwall hside
    exact ⟨hd, by rw [hd]; rfl⟩

/-- Witness for C4: the paddle branch at a concrete overlapping state. -/
theorem C4_collision_priority_witness :
    paddleOverlapCond 800 600 [(0, 0)] c4B ∧
    detectCollision 800 600 rng0 [(0, 0)] c4B = (some (-1, 1), c4B) ∧
    (bounce (detectCollision 800 600 rng0 [(0, 0)] c4B).1
      (detectCollision 800 600 rng0 [(0, 0)] c4B).2).isInsideCollidable = true :=
  have hpad : paddleOverlapCond 800 600 [(0, 0)] c4B :=
    (paddleOverlapCond_iff 800 600 [(0, 0)] c4B).mpr
      ⟨rfl, (0, 0), by simp,
        by norm_num [inExpandedRange, getCollisionRange, POINT_SIZE,
          plankWidth, plankHeight, c4B]⟩
  ⟨hpad, (C4_collision_priority 800 600 rng0 [(0, 0)] c4B).1 hpad⟩

/-- C9: every non-null modifier, the wall modifier (1, -1) included, makes
the bounce step raise the flag; hence a ball that contacts a top or bottom
wall without ever overlapping a paddle ends the frame with the flag up, and
the collision test on the following frame cannot return the paddle modifier
even when the ball then overlaps a paddle. -/
theorem C9_wall_contact_sets_flag (w h : ℚ) (rng1 rng2 : Rng) (ps : List (ℚ × ℚ))
    (dt : ℚ) (b0 : BallState)
    (hflag : b0.isInsideCollidable = false)
    (hnopad : ∀ p ∈ ps,
      inExpandedRange w h b0.translation.1 b0.translation.2 (POINT_SIZE h / 2) p = false)
    (hwall : b0.translation.2 ≤ 0 ∨ h ≤ b0.translation.2) :
    (∀ (m : ℚ × ℚ) (b : BallState), (bounce (some m) b).isInsideCollidable = true) ∧
    (ballMoveUpdate w h rng1 ps dt b0).isInsideCollidable = true ∧
    (detectCollision w h rng2 ps (ballMoveUpdate w h rng1 ps dt b0)).1 ≠ some (-1, 1) := by
  have hpad : ¬ paddleOverlapCond w h ps b0 := by
    rw [paddleOverlapCond_iff]
    rintro ⟨-, p, hp, hin⟩
    rw [hnopad p hp] at hin
    exact Bool.false_ne_true hin
  have hd := detectCollision_wall w h rng1 ps b0 hpad hwall
  have hflag1 : (ballMoveUpdate w h rng1 ps dt b0).isInsideCollidable = true := by
    rw [ballMoveUpdate_flag, hd]
    rfl
  exact ⟨fun m b => rfl, hflag1,
    flag_blocks_paddle w h rng2 ps (ballMoveUpdate w h rng1 ps dt b0) hflag1⟩

/-- Witness for C9: the ball starts on the bottom wall away from the paddle
and enters the paddle rectangle on the following frame. -/
theorem C9_wall_contact_sets_flag_witness :
    c9B0.isInsideCollidable = false ∧
    (∀ p ∈ [((0 : ℚ), (0 : ℚ))],
      inExpandedRange 800 600 c9B0.translation.1 c9B0.translation.2
        (POINT_SIZE 600 / 2) p = false) ∧
    (c9B0.translation.2 ≤ 0 ∨ (600 : ℚ) ≤ c9B0.translation.2) ∧
    inExpandedRange 800 600 c9B1.translation.1 c9B1.translation.2
      (POINT_SIZE 600 / 2) (0, 0) = true ∧
    ((∀ (m : ℚ × ℚ) (b : BallState), (bounce (some m) b).isInsideCollidable = true) ∧
     (ballMoveUpdate 800 600 rng0 [(0, 0)] (1 / 4) c9B0).isInsideCollidable = true ∧
     (detectCollision 800 600 rng0 [(0, 0)]
       (ballMoveUpdate 800 600 rng0 [(0, 0)] (1 / 4) c9B0)).1 ≠ some (-1, 1)) :=
  have h1 : c9B0.isInsideCollidable = false := rfl
  have h2 : ∀ p ∈ [((0 : ℚ), (0 : ℚ))],
      inExpandedRange 800 600 c9B0.translation.1 c9B0.translation.2
        (POINT_SIZE 600 / 2) p = false := by
    intro p hp
    rw [List.mem_singleton] at hp
    subst hp
    norm_num [inExpandedRange, getCollisionRange, POINT_SIZE, plankWidth, plankHeight, c9B0]
  have h3 : c9B0.translation.2 ≤ 0 ∨ (600 : ℚ) ≤ c9B0.translation.2 := by
    left
    norm_num [c9B0]
  have h4 : inExpandedRange 800 600 c9B1.translation.1 c9B1.translation.2
      (POINT_SIZE 600 / 2) (0, 0) = true := by
    norm_num [c9B1, c9B0, rng0, ballMoveUpdate, detectCollision, bounce, inExpandedRange,
      getCollisionRange, POINT_SIZE, PIXELS_PER_SEC, ACCELERATION, plankWidth, plankHeight]
  ⟨h1, h2, h3, h4,
    C9_wall_contact_sets_flag 800 600 rng0 rng0 [(0, 0)] (1 / 4) c9B0 h1 h2 h3⟩

/-- Evaluation of the C1 scenario, frame 1: the paddle branch fires, the X
velocity flips and scales, the flag goes up, the ball does not move. -/
lemma c1B1_eval : c1B1 = ⟨(55 / 2, 75), (-(11 / 10), 0), (1, 0, 0, 1), true⟩ := by
  norm_num [c1B1, c1B0, rng0, ballMoveUpdate, detectCollision, bounce, inExpandedRange,
    getCollisionRange, POINT_SIZE, PIXELS_PER_SEC, ACCELERATION, plankWidth, plankHeight]

/-- Evaluation of the C1 scenario, frame 2: the flag blocks the paddle branch,
nothing matches, the velocity is untouched and the flag goes down. -/
lemma c1B2_eval : c1B2 = ⟨(55 / 2, 75), (-(11 / 10), 0), (1, 0, 0, 1), false⟩ := by
  rw [c1B2, c1B1_eval]
  norm_num [ballMoveUpdate, detectCollision, bounce, inExpandedRange,
    getCollisionRange, POINT_SIZE, PIXELS_PER_SEC, ACCELERATION, plankWidth, plankHeight, rng0]

/-- Evaluation of the C1 scenario, frame 3: the paddle branch fires again. -/
lemma c1B3_eval : c1B3 = ⟨(55 / 2, 75), (121 / 100, 0), (1, 0, 0, 1), true⟩ := by
  rw [c1B3, c1B2_eval]
  norm_num [ballMoveUpdate, detectCollision, bounce, inExpandedRange,
    getCollisionRange, POINT_SIZE, PIXELS_PER_SEC, ACCELERATION, plankWidth, plankHeight, rng0]

/-- Evaluation of the C3 witness scenario, frame 1: the paddle bounce sends
the ball below the bottom wall. -/
lemma c3W1_eval :
    c3W1 = ⟨(-(7076 / 25), -(7076 / 25)), (-(11 / 10), -(11 / 10)), (1, 0, 0, 1), true⟩ := by
  norm_num [c3W1, c3W0, rng0, ballMoveUpdate, detectCollision, bounce, inExpandedRange,
    getCollisionRange, POINT_SIZE, PIXELS_PER_SEC, ACCELERATION, plankWidth, plankHeight]

/-- C1 counterexample: in the concrete scenario (ball resting on the boundary
of the expanded rectangle of the origin paddle, flag down, deltaTime 0 so the
ball never moves), frame 1 flips the X velocity and raises the flag as the
claim states; but on the immediately following frame, with the ball still
inside the expanded rectangle, the X velocity does not flip again: it is
unchanged at -(11/10), and the flag is lowered instead. -/
theorem C1_counterexample :
    inExpandedRange 800 600 c1B0.translation.1 c1B0.translation.2
      (POINT_SIZE 600 / 2) (0, 0) = true ∧
    c1B0.isInsideCollidable = false ∧
    c1B1.moveVector.1 = -(11 / 10) ∧
    c1B1.isInsideCollidable = true ∧
    inExpandedRange 800 600 c1B1.translation.1 c1B1.translation.2
      (POINT_SIZE 600 / 2) (0, 0) = true ∧
    c1B2.moveVector.1 = -(11 / 10) ∧
    c1B2.isInsideCollidable = false := by
  refine ⟨?_, rfl, ?_, ?_, ?_, ?_, ?_⟩
  · norm_num [inExpandedRange, getCollisionRange, POINT_SIZE, plankWidth, plankHeight, c1B0]
  · rw [c1B1_eval]
  · rw [c1B1_eval]
  · rw [c1B1_eval]
    norm_num [inExpandedRange, getCollisionRange, POINT_SIZE, plankWidth, plankHeight]
  · rw [c1B2_eval]
  · rw [c1B2_eval]

/-- C1 amended: with the flag down and the ball inside a paddle expanded
rectangle, frame 1 flips the X velocity sign, scales both components by
ACCELERATION and raises the flag; the immediately following frame, with the
ball still strictly inside the field, leaves the velocity unchanged and
lowers the flag; the second following frame, with the ball again inside the
expanded rectangle, flips the X velocity sign a second time with another
ACCELERATION scaling. -/
theorem C1_debounce_amended (w h : ℚ) (rng1 rng2 rng3 : Rng) (ps : List (ℚ × ℚ))
    (dt1 dt2 dt3 : ℚ) (b0 b1 b2 b3 : BallState)
    (hpad0 : paddleOverlapCond w h ps b0)
    (hb1 : b1 = ballMoveUpdate w h rng1 ps dt1 b0)
    (hmid : 0 < b1.translation.2 ∧ b1.translation.2 < h ∧
            0 < b1.translation.1 ∧ b1.translation.1 < w)
    (hb2 : b2 = ballMoveUpdate w h rng2 ps dt2 b1)
    (hpad2 : ∃ p ∈ ps, inExpandedRange w h b2.translation.1 b2.translation.2
      (POINT_SIZE h / 2) p = true)
    (hb3 : b3 = ballMoveUpdate w h rng3 ps dt3 b2) :
    b1.moveVector.1 = -(ACCELERATION * b0.moveVector.1) ∧
    b1.moveVector.2 = ACCELERATION * b0.moveVector.2 ∧
    b1.isInsideCollidable = true ∧
    b2.moveVector = b1.moveVector ∧
    b2.isInsideCollidable = false ∧
    b3.moveVector.1 = ACCELERATION * ACCELERATION * b0.moveVector.1 ∧
    b3.moveVector.2 = ACCELERATION * ACCELERATION * b0.moveVector.2 ∧
    b3.isInsideCollidable = true := by
  have hd0 := detectCollision_paddle w h rng1 ps b0 hpad0
  have hmv1a : b1.moveVector.1 = b0.moveVector.1 * (-1) * ACCELERATION := by
    rw [hb1, ballMoveUpdate_moveVector, hd0]
    rfl
  have hmv1b : b1.moveVector.2 = b0.moveVector.2 * 1 * ACCELERATION := by
    rw [hb1, ballMoveUpdate_moveVector, hd0]
    rfl
  have hflag1 : b1.isInsideCollidable = true := by
    rw [hb1, ballMoveUpdate_flag, hd0]
    rfl
  have hnpad1 : ¬ paddleOverlapCond w h ps b1 := by
    rw [paddleOverlapCond_iff]
    rintro ⟨hf, -⟩
    rw [hflag1] at hf
    exact absurd hf (by simp)
  have hnwall1 : ¬ (b1.translation.2 ≤ 0 ∨ h ≤ b1.translation.2) := by
    rintro (hc | hc) <;> linarith [hmid.1, hmid.2.1]
  have hnside1 : ¬ (b1.translation.1 ≤ 0 ∨ w ≤ b1.translation.1) := by
    rintro (hc | hc) <;> linarith [hmid.2.2.1, hmid.2.2.2]
  have hd1 := detectCollision_none w h rng2 ps b1 hnpad1 hnwall1 hnside1
  have hmv2 : b2.moveVector = b1.moveVector := by
    rw [hb2, ballMoveUpdate_moveVector, hd1]
    rfl
  have hflag2 : b2.isInsideCollidable = false := by
    rw [hb2, ballMoveUpdate_flag, hd1]
    rfl
  have hpad2c : paddleOverlapCond w h ps b2 :=
    (paddleOverlapCond_iff w h ps b2).mpr ⟨hflag2, hpad2⟩
  have hd2 := detectCollision_paddle w h rng3 ps b2 hpad2c
  have hmv3a : b3.moveVector.1 = b2.moveVector.1 * (-1) * ACCELERATION := by
    rw [hb3, ballMoveUpdate_moveVector, hd2]
    rfl
  have hmv3b : b3.moveVector.2 = b2.moveVector.2 * 1 * ACCELERATION := by
    rw [hb3, ballMoveUpdate_moveVector, hd2]
    rfl
  have hflag3 : b3.isInsideCollidable = true := by
    rw [hb3, ballMoveUpdate_flag, hd2]
    rfl
  have hmv2a : b2.moveVector.1 = b1.moveVector.1 := by rw [hmv2]
  have hmv2b : b2.moveVector.2 = b1.moveVector.2 := by rw [hmv2]
  refine ⟨by rw [hmv1a]; ring, by rw [hmv1b]; ring, hflag1, hmv2, hflag2, ?_, ?_, hflag3⟩
  · rw [hmv3a, hmv2a, hmv1a]
    ring
  · rw [hmv3b, hmv2b, hmv1b]
    ring

/-- Witness for the amended C1 at the concrete three-frame scenario. -/
theorem C1_debounce_amended_witness :
    paddleOverlapCond 800 600 [(0, 0)] c1B0 ∧
    (0 < c1B1.translation.2 ∧ c1B1.translation.2 < 600 ∧
     0 < c1B1.translation.1 ∧ c1B1.translation.1 < 800) ∧
    (∃ p ∈ [((0 : ℚ), (0 : ℚ))],
      inExpandedRange 800 600 c1B2.translation.1 c1B2.translation.2
        (POINT_SIZE 600 / 2) p = true) ∧
    (c1B1.moveVector.1 = -(ACCELERATION * c1B0.moveVector.1) ∧
     c1B1.moveVector.2 = ACCELERATION * c1B0.moveVector.2 ∧
     c1B1.isInsideCollidable = true ∧
     c1B2.moveVector = c1B1.moveVector ∧
     c1B2.isInsideCollidable = false ∧
     c1B3.moveVector.1 = ACCELERATION * ACCELERATION * c1B0.moveVector.1 ∧
     c1B3.moveVector.2 = ACCELERATION * ACCELERATION * c1B0.moveVector.2 ∧
     c1B3.isInsideCollidable = true) :=
  have hpad : paddleOverlapCond 800 600 [(0, 0)] c1B0 :=
    (paddleOverlapCond_iff 800 600 [(0, 0)] c1B0).mpr
      ⟨rfl, (0, 0), by simp,
        by norm_num [inExpandedRange, getCollisionRange, POINT_SIZE,
          plankWidth, plankHeight, c1B0]⟩
  have hmid : 0 < c1B1.translation.2 ∧ c1B1.translation.2 < 600 ∧
      0 < c1B1.translation.1 ∧ c1B1.translation.1 < 800 := by
    rw [c1B1_eval]
    norm_num
  have hpad2 : ∃ p ∈ [((0 : ℚ), (0 : ℚ))],
      inExpandedRange 800 600 c1B2.translation.1 c1B2.translation.2
        (POINT_SIZE 600 / 2) p = true :=
    ⟨(0, 0), by simp,
      by rw [c1B2_eval]
         norm_num [inExpandedRange, getCollisionRange, POINT_SIZE, plankWidth, plankHeight]⟩
  ⟨hpad, hmid, hpad2,
    C1_debounce_amended 800 600 rng0 rng0 rng0 [(0, 0)] 0 0 0 c1B0 c1B1 c1B2 c1B3
      hpad rfl hmid rfl hpad2 rfl⟩

/-- C2 counterexample: a ball exactly at (0, h/2) with velocity (-1, 0) on an
800 by 600 field with the two startup paddles, deltaTime = 1 and fresh draws
giving velocity (1, 0): the collision step recenters the ball, but the same
moveUpdate call then integrates the fresh velocity, so the position after the
update is not the field center. -/
theorem C2_counterexample :
    c2B0.translation = (0, 600 / 2) ∧
    c2B0.moveVector = (-1, 0) ∧
    c2B0.translation.1 ≤ 0 ∧
    (ballMoveUpdate 800 600 c2Rng c2Paddles 1 c2B0).translation ≠ (800 / 2, 600 / 2) := by
  refine ⟨by norm_num [c2B0, Prod.ext_iff], rfl, by norm_num [c2B0], ?_⟩
  norm_num [ballMoveUpdate, detectCollision, bounce, inExpandedRange, getCollisionRange,
    POINT_SIZE, PIXELS_PER_SEC, ACCELERATION, plankWidth, plankHeight, randomMoveVector,
    randomColor, c2B0, c2Rng, c2Paddles, Prod.ext_iff]

/-- C2 amended: when the ball is at or beyond a side wall with no paddle
overlap detected and no top or bottom wall contact, the update recenters the
ball, assigns the freshly sampled velocity and color and lowers the flag;
the position after the full update is the field center plus one integration
step of the fresh velocity, hence exactly the center when deltaTime is 0. -/
theorem C2_reset_amended (w h : ℚ) (rng : Rng) (ps : List (ℚ × ℚ)) (dt : ℚ) (b : BallState)
    (hpad : ¬ paddleOverlapCond w h ps b)
    (hwall : 0 < b.translation.2 ∧ b.translation.2 < h)
    (hside : b.translation.1 ≤ 0 ∨ w ≤ b.translation.1) :
    (ballMoveUpdate w h rng ps dt b).translation =
      (w / 2 + PIXELS_PER_SEC w * (randomMoveVector rng.v1 rng.v2).1 * dt,
       h / 2 + PIXELS_PER_SEC w * (randomMoveVector rng.v1 rng.v2).2 * dt) ∧
    (ballMoveUpdate w h rng ps dt b).moveVector = randomMoveVector rng.v1 rng.v2 ∧
    (ballMoveUpdate w h rng ps dt b).color = randomColor rng.c1 rng.c2 rng.c3 ∧
    (ballMoveUpdate w h rng ps dt b).isInsideCollidable = false ∧
    (dt = 0 → (ballMoveUpdate w h rng ps dt b).translation = (w / 2, h / 2)) := by
  have hnwall : ¬ (b.translation.2 ≤ 0 ∨ h ≤ b.translation.2) := by
    rintro (hc | hc) <;> linarith [hwall.1, hwall.2]
  have hd := detectCollision_reset w h rng ps b hpad hnwall hside
  refine ⟨?_, ?_, ?_, ?_, ?_⟩
  · rw [ballMoveUpdate_eq, hd]
    rfl
  · rw [ballMoveUpdate_eq, hd]
    rfl
  · rw [ballMoveUpdate_eq, hd]
    rfl
  · rw [ballMoveUpdate_eq, hd]
    rfl
  · intro hdt0
    subst hdt0
    rw [ballMoveUpdate_eq, hd]
    simp [bounce, Prod.ext_iff]

/-- Witness for the amended C2 at the concrete reset scenario with
deltaTime = 0. -/
theorem C2_reset_amended_witness :
    (¬ paddleOverlapCond 800 600 c2Paddles c2B0) ∧
    (0 < c2B0.translation.2 ∧ c2B0.translation.2 < 600) ∧
    (c2B0.translation.1 ≤ 0 ∨ (800 : ℚ) ≤ c2B0.translation.1) ∧
    ((ballMoveUpdate 800 600 c2Rng c2Paddles 0 c2B0).translation =
       (800 / 2 + PIXELS_PER_SEC 800 * (randomMoveVector c2Rng.v1 c2Rng.v2).1 * 0,
        600 / 2 + PIXELS_PER_SEC 800 * (randomMoveVector c2Rng.v1 c2Rng.v2).2 * 0) ∧
     (ballMoveUpdate 800 600 c2Rng c2Paddles 0 c2B0).moveVector =
       randomMoveVector c2Rng.v1 c2Rng.v2 ∧
     (ballMoveUpdate 800 600 c2Rng c2Paddles 0 c2B0).color =
       randomColor c2Rng.c1 c2Rng.c2 c2Rng.c3 ∧
     (ballMoveUpdate 800 600 c2Rng c2Paddles 0 c2B0).isInsideCollidable = false ∧
     ((0 : ℚ) = 0 →
       (ballMoveUpdate 800 600 c2Rng c2Paddles 0 c2B0).translation = (800 / 2, 600 / 2))) :=
  have hpad : ¬ paddleOverlapCond 800 600 c2Paddles c2B0 := by
    rw [paddleOverlapCond_iff]
    rintro ⟨-, p, hp, hin⟩
    rw [c2Paddles, List.mem_cons, List.mem_singleton] at hp
    rcases hp with hp | hp <;>
      (subst hp
       norm_num [inExpandedRange, getCollisionRange, POINT_SIZE,
         plankWidth, plankHeight, c2B0] at hin)
  have hwall : 0 < c2B0.translation.2 ∧ c2B0.translation.2 < 600 := by
    norm_num [c2B0]
  have hside : c2B0.translation.1 ≤ 0 ∨ (800 : ℚ) ≤ c2B0.translation.1 := by
    left
    norm_num [c2B0]
  ⟨hpad, hwall, hside,
    C2_reset_amended 800 600 c2Rng c2Paddles 0 c2B0 hpad hwall hside⟩

/-- C3 counterexample: a ball at the left edge with the flag up and no paddle
overlap. The side-wall case (c) matches: the ball is recentered and given the
fresh velocity and color of the draws; yet the flag is cleared by this frame,
refuting the claim that the flag is cleared only when no collision condition
matches at all. -/
theorem C3_counterexample :
    c3B0.isInsideCollidable = true ∧
    c3B0.translation.1 ≤ 0 ∧
    (ballMoveUpdate 800 600 c2Rng c2Paddles 1 c3B0).moveVector =
      randomMoveVector (3 / 4) (1 / 2) ∧
    (ballMoveUpdate 800 600 c2Rng c2Paddles 1 c3B0).color =
      randomColor (1 / 4) (1 / 2) (3 / 4) ∧
    (ballMoveUpdate 800 600 c2Rng c2Paddles 1 c3B0).isInsideCollidable = false := by
  refine ⟨rfl, by norm_num [c3B0], ?_, ?_, ?_⟩ <;>
    norm_num [ballMoveUpdate, detectCollision, bounce, inExpandedRange, getCollisionRange,
      POINT_SIZE, PIXELS_PER_SEC, ACCELERATION, plankWidth, plankHeight, randomMoveVector,
      randomColor, c3B0, c2Rng, c2Paddles, Prod.ext_iff]

/-- C3 amended: after any frame the flag is up exactly when the collision
test returned a modifier, so the flag is cleared both on a side-wall exit
(case c) and when nothing matches (case d), and set on paddle overlap and
wall contact; in particular a ball that goes from paddle overlap on one
frame to a top or bottom wall contact on the next keeps the flag up across
both frames. -/
theorem C3_flag_lifecycle_amended (w h : ℚ) (rng1 rng2 : Rng) (ps : List (ℚ × ℚ))
    (dt1 dt2 : ℚ) (b0 b1 : BallState)
    (hpad0 : paddleOverlapCond w h ps b0)
    (hb1 : b1 = ballMoveUpdate w h rng1 ps dt1 b0)
    (hwall1 : b1.translation.2 ≤ 0 ∨ h ≤ b1.translation.2) :
    (∀ (rng : Rng) (dt : ℚ) (b : BallState),
      (ballMoveUpdate w h rng ps dt b).isInsideCollidable =
        (detectCollision w h rng ps b).1.isSome) ∧
    b1.isInsideCollidable = true ∧
    (ballMoveUpdate w h rng2 ps dt2 b1).isInsideCollidable = true := by
  have hd0 := detectCollision_paddle w h rng1 ps b0 hpad0
  have hflag1 : b1.isInsideCollidable = true := by
    rw [hb1, ballMoveUpdate_flag, hd0]
    rfl
  have hnpad1 : ¬ paddleOverlapCond w h ps b1 := by
    rw [paddleOverlapCond_iff]
    rintro ⟨hf, -⟩
    rw [hflag1] at hf
    exact absurd hf (by simp)
  have hd1 := detectCollision_wall w h rng2 ps b1 hnpad1 hwall1
  refine ⟨fun rng dt b => ballMoveUpdate_flag w h rng ps dt b, hflag1, ?_⟩
  rw [ballMoveUpdate_flag, hd1]
  rfl

/-- Witness for the amended C3: the ball overlaps the origin paddle, then
contacts the bottom wall on the following frame, and the flag stays up. -/
theorem C3_flag_lifecycle_amended_witness :
    paddleOverlapCond 800 600 [(0, 0)] c3W0 ∧
    (c3W1.translation.2 ≤ 0 ∨ (600 : ℚ) ≤ c3W1.translation.2) ∧
    ((∀ (rng : Rng) (dt : ℚ) (b : BallState),
       (ballMoveUpdate 800 600 rng [(0, 0)] dt b).isInsideCollidable =
         (detectCollision 800 600 rng [(0, 0)] b).1.isSome) ∧
     c3W1.isInsideCollidable = true ∧
     (ballMoveUpdate 800 600 rng0 [(0, 0)] 1 c3W1).isInsideCollidable = true) :=
  have hpad : paddleOverlapCond 800 600 [(0, 0)] c3W0 :=
    (paddleOverlapCond_iff 800 600 [(0, 0)] c3W0).mpr
      ⟨rfl, (0, 0), by simp,
        by norm_num [inExpandedRange, getCollisionRange, POINT_SIZE,
          plankWidth, plankHeight, c3W0]⟩
  have hwall : c3W1.translation.2 ≤ 0 ∨ (600 : ℚ) ≤ c3W1.translation.2 := by
    left
    rw [c3W1_eval]
    norm_num
  ⟨hpad, hwall,
    C3_flag_lifecycle_amended 800 600 rng0 rng0 [(0, 0)] 1 1 c3W0 c3W1 hpad rfl hwall⟩

end Pong
